import Mathlib

/-!
Verification of the feature-normalization and risk-tiering core of the
Heart-Risk-Prediction service (src/app.py).

The Python code is shallowly embedded: Python runtime values that can reach
the normalizer are a small inductive type `PyVal`; Python floats are modelled
as exact rationals (every IEEE double is a dyadic rational, and all the code
does with them is linear arithmetic, comparisons and clamping, which the
rational model reflects faithfully); `str(...)` and `float(...)` coercions
become `pyStr` and `pyFloat`, with `float` parse failure (a caught exception
in the source) modelled as `Option.none`.  The external sklearn model is an
opaque oracle (a pair of functions); the `/predict` route becomes a pure
function returning either an error payload or a prediction result, together
with the list of vectors submitted to the model.
-/

/-- A Python runtime value as it can appear as a field of the JSON request
body handled by the `/predict` route: absent / `None`, a boolean, an integer,
a float (modelled exactly as a rational) or a string. -/
inductive PyVal where
  | none
  | bool (b : Bool)
  | int (n : Int)
  | float (q : ℚ)
  | str (s : String)
  deriving DecidableEq, Repr

/-- ASCII lowercasing of one character; the tokens the source compares
against are all ASCII, so this captures `str.lower()` on every string the
claims mention. -/
def charLower (c : Char) : Char :=
  if 65 ≤ c.toNat ∧ c.toNat ≤ 90 then Char.ofNat (c.toNat + 32) else c

/-- Model of Python `s.lower()` (ASCII range). -/
def strLower (s : String) : String :=
  String.mk (s.data.map charLower)

/-- Whitespace test used by `float(str)` when stripping the argument. -/
def isWs (c : Char) : Bool :=
  c = ' ' ∨ c = '\t' ∨ c = '\n' ∨ c = '\r'

/-- Strip leading and trailing whitespace from a character list. -/
def trimWs (cs : List Char) : List Char :=
  ((cs.dropWhile isWs).reverse.dropWhile isWs).reverse

/-- Decimal value of a list of digit characters (most significant first). -/
def digitsToNat (ds : List Char) : Nat :=
  ds.foldl (fun a c => a * 10 + (c.toNat - 48)) 0

/-- Model of Python `float(s)` on a string: an optional sign, then an
integer part and/or a fractional part (at least one digit overall), then an
optional exponent, with surrounding whitespace stripped.  Parsing is exact
(no rounding to binary); the special spellings `inf`/`nan` are outside the
model, as the spec only speaks of finite numeric input. -/
def pyParseFloat (s : String) : Option ℚ :=
  let cs := trimWs s.data
  let signed : ℚ × List Char :=
    match cs with
    | '+' :: t => (1, t)
    | '-' :: t => (-1, t)
    | t => (1, t)
  let sgn := signed.1
  let ipSplit := signed.2.span Char.isDigit
  let ip := ipSplit.1
  let afterInt := ipSplit.2
  let fpSplit : List Char × List Char :=
    match afterInt with
    | '.' :: t => t.span Char.isDigit
    | t => ([], t)
  let fp := fpSplit.1
  let afterFrac := if afterInt.head? = some '.' then fpSplit.2 else afterInt
  if ip.isEmpty ∧ fp.isEmpty then Option.none
  else
    let mantissa : ℚ := (digitsToNat ip : ℚ) * 10 ^ fp.length + digitsToNat fp
    let base : ℚ := sgn * mantissa / 10 ^ fp.length
    match afterFrac with
    | [] => some base
    | e :: t =>
      if e = 'e' ∨ e = 'E' then
        let esigned : Bool × List Char :=
          match t with
          | '+' :: u => (true, u)
          | '-' :: u => (false, u)
          | u => (true, u)
        let edSplit := esigned.2.span Char.isDigit
        if edSplit.1.isEmpty ∨ ¬ edSplit.2.isEmpty then Option.none
        else if esigned.1 then some (base * 10 ^ digitsToNat edSplit.1)
        else some (base / 10 ^ digitsToNat edSplit.1)
      else Option.none

/-- Model of Python `float(value)`: `none` means the call raises (the source
always guards it with try/except).  Booleans coerce to 0.0/1.0, numbers pass
through, strings are parsed, `None` raises. -/
def pyFloat : PyVal → Option ℚ
  | .none => Option.none
  | .bool b => some (if b then 1 else 0)
  | .int n => some (n : ℚ)
  | .float q => some q
  | .str s => pyParseFloat s

/-- Decimal digits of a fractional part in `[0,1)`, with fuel.  Every value
an actual Python float can take is dyadic, so its decimal expansion
terminates well within the fuel. -/
def fracDigits : Nat → ℚ → String
  | 0, _ => ""
  | k + 1, q =>
    if q = 0 then ""
    else
      let d : Int := (q * 10).floor
      toString d ++ fracDigits k (q * 10 - (d : ℚ))

/-- Model of Python `repr`/`str` of a float: sign, integer part, a dot, and
the fractional digits (`"1.0"` for integral values).  The scientific
notation Python switches to for very large/small magnitudes is outside the
model; no claim depends on it. -/
def floatRepr (q : ℚ) : String :=
  let sgn := if q < 0 then "-" else ""
  let a := |q|
  let ip := a.floor
  let fr := a - (ip : ℚ)
  sgn ++ toString ip ++ "." ++ (if fr = 0 then "0" else fracDigits 64 fr)

/-- Model of Python `str(value)` for the values of `PyVal`. -/
def pyStr : PyVal → String
  | .none => "None"
  | .bool b => if b then "True" else "False"
  | .int n => toString n
  | .float q => floatRepr q
  | .str s => s

/-- Model of Python `int(q)` on a float: truncation toward zero. -/
def truncQ (q : ℚ) : Int :=
  if 0 ≤ q then q.floor else -((-q).floor)

/-- Per-field scaler configuration, the tagged form of the heterogeneous
`SCALERS` dict entries: a numeric range (a dict with a min key) or a
categorical mapping. -/
inductive ScalerConfig where
  | range (min max : ℚ)
  | cat (m : List (String × ℚ))
  deriving DecidableEq, Repr

/-- The entries of the `SCALERS` dict of src/app.py (lines 49-99), in
source order: eight numeric ranges and six categorical maps. -/
def SCALERS_entries : List (String × ScalerConfig) :=
  [("Weight", .range 30 300),
   ("Height", .range 90 250),
   ("BMI", .range 10 100),
   ("Age", .range 18 80),
   ("Fruit", .range 0 100),
   ("Green_Vegetables", .range 0 100),
   ("Fried_Potato", .range 100 0),
   ("Alcohol", .range 30 0),
   ("General_Health", .cat
     [("Excellent", 1.0), ("Very_Good", 0.75), ("Good", 0.5),
      ("Fair", 0.25), ("Poor", 0.0)]),
   ("Checkup", .cat
     [("Within 1 year", 1.0), ("1-2 years", 0.75), ("2-5 years", 0.5),
      ("5+ years", 0.25), ("Never", 0.0)]),
   ("Diabetes", .cat
     [("No", 0.0), ("Borderline", 0.33), ("During Pregnancy", 0.66),
      ("Yes", 1.0)]),
   ("Sex", .cat [("0", 1.0), ("1", 0.0)]),
   ("Exercise", .cat [("0", 0.0), ("1", 1.0)]),
   ("Smoking", .cat [("0", 0.0), ("1", 1.0)])]

/-- Dict access `SCALERS.get(name)`: the config of a field, if any. -/
def SCALERS (name : String) : Option ScalerConfig :=
  SCALERS_entries.lookup name

/-- The category values stored in one scaler config. -/
def catValues : ScalerConfig → List ℚ
  | .range _ _ => []
  | .cat m => m.map Prod.snd

/-- The normalizer `process_input_value(value, feature_name)` of src/app.py
(lines 101-157).  The first block of the source (lines 109-115) is a
commented-out no-op (`pass`) and contributes nothing to behaviour.  For a
configured numeric range the value is parsed, linearly rescaled and clamped
(parse failure yields 0.0); for a configured category map the chain is exact
string lookup, then truncated-numeric-string lookup, then the truthy/falsy
token check on the lowercased rendering, then 0.0; for an unconfigured field
the raw parsed number passes through, with the token check and 0.0 behind
it. -/
def process_input_value (value : PyVal) (feature_name : String) : ℚ :=
  let val_str := strLower (pyStr value)
  match SCALERS feature_name with
  | some (.range mn mx) =>
    match pyFloat value with
    | some v => max 0.0 (min 1.0 ((v - mn) / (mx - mn)))
    | Option.none => 0.0
  | some (.cat m) =>
    match m.lookup (pyStr value) with
    | some r => r
    | Option.none =>
      let numKey : Option ℚ :=
        match pyFloat value with
        | some v => m.lookup (toString (truncQ v))
        | Option.none => Option.none
      match numKey with
      | some r => r
      | Option.none =>
        if val_str = "on" ∨ val_str = "true" ∨ val_str = "yes" then 1.0
        else if val_str = "off" ∨ val_str = "false" ∨ val_str = "no" then 0.0
        else 0.0
  | Option.none =>
    match pyFloat value with
    | some v => v
    | Option.none =>
      if val_str = "on" ∨ val_str = "true" ∨ val_str = "yes" then 1.0
      else if val_str = "off" ∨ val_str = "false" ∨ val_str = "no" ∨
              val_str = "0" then 0.0
      else 0.0

/-- The canonical 18-feature order `MODEL_FEATURES` (src/app.py lines
43-47). -/
def MODEL_FEATURES : List String :=
  ["General_Health", "Checkup", "Exercise", "Skin_Cancer", "Other_Cancer",
   "Depression", "Diabetes", "Arthritis", "Sex", "Age", "Height", "Weight",
   "BMI", "Smoking", "Alcohol", "Fruit", "Green_Vegetables", "Fried_Potato"]

/-- Assembly of the input vector inside the `/predict` route (src/app.py
lines 180-185): for each canonical feature name in order, fetch the value
from the request body (`dict.get` yields `None` when absent) and normalize
it. -/
def build_input_vector (data : String → Option PyVal) : List ℚ :=
  MODEL_FEATURES.map (fun f => process_input_value ((data f).getD .none) f)

/-- The external predictive model, an opaque oracle supplying the two
operations the route consumes on a single row: the positive-class
probability (`predict_proba(...)[0][1]`) and the hard class decision
(`int(predict(...)[0])`). -/
structure Model where
  predict_proba : List ℚ → ℚ
  predict : List ℚ → Int

/-- The successful JSON payload of the `/predict` route. -/
structure PredictionResult where
  probability : ℚ
  cls : Int
  risk_level : Nat
  deriving DecidableEq, Repr

/-- An error JSON payload together with its HTTP status code. -/
structure ErrorPayload where
  error : String
  status : Nat
  deriving DecidableEq, Repr

/-- The probability-to-risk-level bucketing of the `/predict` route
(src/app.py lines 205-214). -/
def risk_level_of (p : ℚ) : Nat :=
  if p ≤ 0.30 then 1
  else if p ≤ 0.45 then 2
  else if p ≤ 0.60 then 3
  else if p ≤ 0.80 then 4
  else 5

/-- The `/predict` route handler (src/app.py lines 171-220) as a pure
function of the loaded model (if any) and the request body.  The second
component records every batch row submitted to the external model, so that
claims about what reaches the model are statable; the handler calls
`predict_proba` and `predict` once each on the same single-row batch. -/
def predict (model : Option Model) (data : String → Option PyVal) :
    Except ErrorPayload PredictionResult × List (List ℚ) :=
  match model with
  | Option.none => (.error ⟨"Model not loaded", 500⟩, [])
  | some m =>
    let input_vector := build_input_vector data
    let prediction_prob := m.predict_proba input_vector
    let prediction_class := m.predict input_vector
    (.ok ⟨prediction_prob, prediction_class, risk_level_of prediction_prob⟩,
     [input_vector, input_vector])

/-- The eight LinearRange fields of the `SCALERS` table. -/
def linearFields : List String :=
  ["Weight", "Height", "BMI", "Age", "Fruit", "Green_Vegetables",
   "Fried_Potato", "Alcohol"]

/-- Every float the fallback chain of the normalizer can produce when the
raw value does not parse as a number: the configured category values
together with the 0.0/1.0 token fallbacks and the 0.0 default. -/
def fallbackValues : List ℚ := [0.0, 0.25, 0.33, 0.5, 0.66, 0.75, 1.0]

section Helpers

/-- Evaluation of the normalizer on a numeric-range field when the value
parses as a number: linear rescale then clamp. -/
theorem range_some (v : PyVal) (f : String) (mn mx q : ℚ)
    (hS : SCALERS f = some (ScalerConfig.range mn mx))
    (hq : pyFloat v = some q) :
    process_input_value v f = max 0.0 (min 1.0 ((q - mn) / (mx - mn))) := by
  unfold process_input_value
  rw [hS, hq]

/-- Evaluation of the normalizer on a numeric-range field when the value
fails to parse: the caught exception yields 0.0. -/
theorem range_none (v : PyVal) (f : String) (mn mx : ℚ)
    (hS : SCALERS f = some (ScalerConfig.range mn mx))
    (hq : pyFloat v = Option.none) :
    process_input_value v f = 0.0 := by
  unfold process_input_value
  rw [hS, hq]

/-- Evaluation of the normalizer on a field configured with a category
map. -/
theorem cat_case (v : PyVal) (f : String) (m : List (String × ℚ))
    (hS : SCALERS f = some (ScalerConfig.cat m)) :
    process_input_value v f =
      match m.lookup (pyStr v) with
      | some r => r
      | Option.none =>
        match (match pyFloat v with
               | some w => m.lookup (toString (truncQ w))
               | Option.none => Option.none) with
        | some r => r
        | Option.none =>
          if strLower (pyStr v) = "on" ∨ strLower (pyStr v) = "true" ∨
              strLower (pyStr v) = "yes" then 1.0
          else if strLower (pyStr v) = "off" ∨ strLower (pyStr v) = "false" ∨
              strLower (pyStr v) = "no" then 0.0
          else 0.0 := by
  unfold process_input_value
  rw [hS]

/-- Clamping keeps every rational inside the unit interval. -/
theorem clamp_mem (x : ℚ) :
    0 ≤ max 0.0 (min 1.0 x) ∧ max 0.0 (min 1.0 x) ≤ 1 := by
  constructor
  · calc (0:ℚ) ≤ 0.0 := by norm_num
      _ ≤ max 0.0 (min 1.0 x) := le_max_left _ _
  · refine max_le (by norm_num) ?_
    calc min 1.0 x ≤ 1.0 := min_le_left _ _
      _ ≤ 1 := by norm_num

/-- A successful association-list lookup returns one of the stored
values. -/
theorem lookup_val_mem {α β : Type} [BEq α] {m : List (α × β)} {k : α}
    {r : β} (h : m.lookup k = some r) : r ∈ m.map Prod.snd := by
  induction m with
  | nil => simp [List.lookup] at h
  | cons p t ih =>
    rw [List.lookup] at h
    cases hk : k == p.1 with
    | true =>
      rw [hk] at h
      simp only [Option.some.injEq] at h
      simp [h.symm]
    | false =>
      rw [hk] at h
      simp [ih h]

/-- Every category map stored in `SCALERS` has all its values inside the
fallback value set. -/
theorem scalers_cat_values (f : String) (m : List (String × ℚ))
    (h : SCALERS f = some (ScalerConfig.cat m)) :
    ∀ x ∈ m.map Prod.snd, x ∈ fallbackValues := by
  have hc : ScalerConfig.cat m ∈ SCALERS_entries.map Prod.snd :=
    lookup_val_mem h
  have hall : ∀ c ∈ SCALERS_entries.map Prod.snd,
      ∀ x ∈ catValues c, x ∈ fallbackValues := by
    with_unfolding_all decide
  have hm := hall _ hc
  simpa [catValues] using hm

/-- The normalizer on a category-map field returns a stored value, 0.0 or
1.0, whatever the input. -/
theorem cat_result_cases (v : PyVal) (f : String) (m : List (String × ℚ))
    (hS : SCALERS f = some (ScalerConfig.cat m)) :
    process_input_value v f ∈ m.map Prod.snd ∨
      process_input_value v f = 0.0 ∨ process_input_value v f = 1.0 := by
  rw [cat_case v f m hS]
  cases h1 : m.lookup (pyStr v) with
  | some r => exact Or.inl (lookup_val_mem h1)
  | none =>
    dsimp only
    cases hq : pyFloat v with
    | some w =>
      dsimp only
      cases h2 : m.lookup (toString (truncQ w)) with
      | some r => exact Or.inl (lookup_val_mem h2)
      | none =>
        dsimp only
        split_ifs
        · exact Or.inr (Or.inr rfl)
        · exact Or.inr (Or.inl rfl)
        · exact Or.inr (Or.inl rfl)
    | none =>
      dsimp only
      split_ifs
      · exact Or.inr (Or.inr rfl)
      · exact Or.inr (Or.inl rfl)
      · exact Or.inr (Or.inl rfl)

/-- Every fallback value is inside the unit interval. -/
theorem fallback_bounds : ∀ x ∈ fallbackValues, 0 ≤ x ∧ x ≤ 1 := by
  with_unfolding_all decide

end Helpers

/-- Claim C1: the risk-level bucketing of the predict route is a total,
non-overlapping partition of the unit interval with inclusive upper bounds:
every probability in [0,1] gets exactly one level in 1..5, characterized by
p ≤ 0.30 for level 1, 0.30 < p ≤ 0.45 for level 2, 0.45 < p ≤ 0.60 for
level 3, 0.60 < p ≤ 0.80 for level 4 and p > 0.80 for level 5; each
boundary value lands in the lower bucket, e.g. 0.45 gives level 2 and
0.450001 gives level 3. -/
theorem risk_level_partition (p : ℚ) (h0 : 0 ≤ p) (h1 : p ≤ 1) :
    (1 ≤ risk_level_of p ∧ risk_level_of p ≤ 5) ∧
    (risk_level_of p = 1 ↔ p ≤ 0.30) ∧
    (risk_level_of p = 2 ↔ 0.30 < p ∧ p ≤ 0.45) ∧
    (risk_level_of p = 3 ↔ 0.45 < p ∧ p ≤ 0.60) ∧
    (risk_level_of p = 4 ↔ 0.60 < p ∧ p ≤ 0.80) ∧
    (risk_level_of p = 5 ↔ 0.80 < p) ∧
    risk_level_of 0.45 = 2 ∧ risk_level_of 0.450001 = 3 := by
  refine ⟨?_, ?_, ?_, ?_, ?_, ?_,
    by unfold risk_level_of; norm_num,
    by unfold risk_level_of; norm_num⟩ <;>
  · unfold risk_level_of
    split_ifs with a b c d <;> norm_num at * <;>
      first
        | assumption
        | linarith
        | exact ⟨by linarith, by linarith⟩
        | (rintro ⟨hA, hB⟩
           linarith)
        | (intro h
           linarith)

/-- Witness for C1 at the boundary probability 0.45. -/
theorem risk_level_partition_witness :
    (0:ℚ) ≤ 0.45 ∧ (0.45:ℚ) ≤ 1 ∧
    (risk_level_of 0.45 = 2 ↔ (0.30:ℚ) < 0.45 ∧ (0.45:ℚ) ≤ 0.45) :=
  ⟨by norm_num, by norm_num,
   (risk_level_partition 0.45 (by norm_num) (by norm_num)).2.2.1⟩

/-- Claim C5: for every input record the assembled feature vector has
length exactly 18 and its entries are, in order, the normalized values of
the 18 canonical fields General_Health, Checkup, Exercise, Skin_Cancer,
Other_Cancer, Depression, Diabetes, Arthritis, Sex, Age, Height, Weight,
BMI, Smoking, Alcohol, Fruit, Green_Vegetables, Fried_Potato, regardless of
which keys are present or absent in the record. -/
theorem feature_vector_shape (data : String → Option PyVal) :
    (build_input_vector data).length = 18 ∧
    build_input_vector data =
      [process_input_value ((data "General_Health").getD PyVal.none) "General_Health",
       process_input_value ((data "Checkup").getD PyVal.none) "Checkup",
       process_input_value ((data "Exercise").getD PyVal.none) "Exercise",
       process_input_value ((data "Skin_Cancer").getD PyVal.none) "Skin_Cancer",
       process_input_value ((data "Other_Cancer").getD PyVal.none) "Other_Cancer",
       process_input_value ((data "Depression").getD PyVal.none) "Depression",
       process_input_value ((data "Diabetes").getD PyVal.none) "Diabetes",
       process_input_value ((data "Arthritis").getD PyVal.none) "Arthritis",
       process_input_value ((data "Sex").getD PyVal.none) "Sex",
       process_input_value ((data "Age").getD PyVal.none) "Age",
       process_input_value ((data "Height").getD PyVal.none) "Height",
       process_input_value ((data "Weight").getD PyVal.none) "Weight",
       process_input_value ((data "BMI").getD PyVal.none) "BMI",
       process_input_value ((data "Smoking").getD PyVal.none) "Smoking",
       process_input_value ((data "Alcohol").getD PyVal.none) "Alcohol",
       process_input_value ((data "Fruit").getD PyVal.none) "Fruit",
       process_input_value ((data "Green_Vegetables").getD PyVal.none) "Green_Vegetables",
       process_input_value ((data "Fried_Potato").getD PyVal.none) "Fried_Potato"] :=
  ⟨rfl, rfl⟩

/-- Claim C6: when the model is not loaded, the predict route returns the
service-level error payload (HTTP 500, message Model not loaded) rather
than a prediction, and the list of vectors submitted to the model is empty,
for every request body. -/
theorem model_unavailable (data : String → Option PyVal) :
    predict Option.none data =
      (Except.error ⟨"Model not loaded", 500⟩, ([] : List (List ℚ))) :=
  rfl

/-- Claim C8: for each of the 18 canonical fields, when the field is absent
from the request the normalizer receives the None sentinel and returns the
fallback 0.0, whether the field is a LinearRange field, a CategoryMap field
or an unconfigured one. -/
theorem missing_field_fallback (f : String) (hf : f ∈ MODEL_FEATURES)
    (data : String → Option PyVal) (hd : data f = Option.none) :
    (data f).getD PyVal.none = PyVal.none ∧
    process_input_value ((data f).getD PyVal.none) f = 0 := by
  rw [hd]
  refine ⟨rfl, ?_⟩
  have hall : ∀ g ∈ MODEL_FEATURES, process_input_value PyVal.none g = 0 := by
    with_unfolding_all decide
  exact hall f hf

/-- Witness for C8: the unconfigured field Skin_Cancer, absent from an
empty request. -/
theorem missing_field_fallback_witness :
    "Skin_Cancer" ∈ MODEL_FEATURES ∧
    process_input_value
      (((fun _ : String => (Option.none : Option PyVal)) "Skin_Cancer").getD
        PyVal.none) "Skin_Cancer" = 0 :=
  ⟨by decide,
   (missing_field_fallback "Skin_Cancer" (by decide)
      (fun _ => Option.none) rfl).2⟩

/-- Claim C10: on the Sex field, the numeric value 1 (as int, as float, and
as the string "1") resolves through the category map to the mapped male
encoding 0.0, while the boolean-style truthy tokens "true", "yes" and "on"
fall through to the token fallback and produce 1.0, the opposite
encoding. -/
theorem sex_encoding_contrast :
    SCALERS "Sex" = some (ScalerConfig.cat [("0", 1.0), ("1", 0.0)]) ∧
    process_input_value (PyVal.int 1) "Sex" = 0.0 ∧
    process_input_value (PyVal.str "1") "Sex" = 0.0 ∧
    process_input_value (PyVal.float 1) "Sex" = 0.0 ∧
    process_input_value (PyVal.str "true") "Sex" = 1.0 ∧
    process_input_value (PyVal.str "yes") "Sex" = 1.0 ∧
    process_input_value (PyVal.str "on") "Sex" = 1.0 ∧
    ((0.0 : ℚ) ≠ 1.0) := by
  with_unfolding_all decide

/-- Claim C2: on every LinearRange field (Weight, Height, BMI, Age, Fruit,
Green_Vegetables, Fried_Potato, Alcohol) the normalizer returns the clamped
linear rescale (v - min) / (max - min) of any value that parses as a
number, the result always lies in [0, 1] whatever the input, and a value
that fails to parse yields 0.0 rather than an error. -/
theorem linear_fields_clamped (f : String) (hf : f ∈ linearFields)
    (v : PyVal) :
    (0 ≤ process_input_value v f ∧ process_input_value v f ≤ 1) ∧
    (∀ q mn mx, pyFloat v = some q →
      SCALERS f = some (ScalerConfig.range mn mx) →
      process_input_value v f = max 0.0 (min 1.0 ((q - mn) / (mx - mn)))) ∧
    (pyFloat v = Option.none → process_input_value v f = 0) := by
  have hset : ∃ mn mx, SCALERS f = some (ScalerConfig.range mn mx) := by
    fin_cases hf
    · exact ⟨30, 300, by with_unfolding_all decide⟩
    · exact ⟨90, 250, by with_unfolding_all decide⟩
    · exact ⟨10, 100, by with_unfolding_all decide⟩
    · exact ⟨18, 80, by with_unfolding_all decide⟩
    · exact ⟨0, 100, by with_unfolding_all decide⟩
    · exact ⟨0, 100, by with_unfolding_all decide⟩
    · exact ⟨100, 0, by with_unfolding_all decide⟩
    · exact ⟨30, 0, by with_unfolding_all decide⟩
  obtain ⟨mn, mx, hS⟩ := hset
  refine ⟨?_, ?_, ?_⟩
  · cases hq : pyFloat v with
    | some w => rw [range_some v f mn mx w hS hq]; exact clamp_mem _
    | none => rw [range_none v f mn mx hS hq]; norm_num
  · intro q mn2 mx2 hq hS2
    rw [hS] at hS2
    injection hS2 with h3
    injection h3 with h4 h5
    subst h4
    subst h5
    exact range_some v f mn mx q hS hq
  · intro hq
    rw [range_none v f mn mx hS hq]
    norm_num

/-- Witness for C2: the Weight field with an out-of-range numeric input. -/
theorem linear_fields_clamped_witness :
    "Weight" ∈ linearFields ∧
    pyFloat (PyVal.int 400) = some 400 ∧
    SCALERS "Weight" = some (ScalerConfig.range 30 300) ∧
    process_input_value (PyVal.int 400) "Weight" =
      max 0.0 (min 1.0 ((400 - 30) / (300 - 30))) :=
  ⟨by decide, by with_unfolding_all decide, by with_unfolding_all decide,
   (linear_fields_clamped "Weight" (by decide) (PyVal.int 400)).2.1 400 30 300
     (by with_unfolding_all decide) (by with_unfolding_all decide)⟩

/-- Claim C7: on the inverted-range fields Fried_Potato (min 100, max 0)
and Alcohol (min 30, max 0), normalization is monotonically decreasing in
the raw numeric value: if two values parse to v1 ≤ v2, the normalization of
the larger is at most the normalization of the smaller. -/
theorem inverted_fields_antitone (f : String)
    (hf : f = "Fried_Potato" ∨ f = "Alcohol") (x1 x2 : PyVal) (v1 v2 : ℚ)
    (hle : v1 ≤ v2) (h1 : pyFloat x1 = some v1) (h2 : pyFloat x2 = some v2) :
    process_input_value x2 f ≤ process_input_value x1 f := by
  rcases hf with rfl | rfl
  · rw [range_some x1 "Fried_Potato" 100 0 v1 (by with_unfolding_all decide) h1,
        range_some x2 "Fried_Potato" 100 0 v2 (by with_unfolding_all decide) h2]
    have e1 : (v1 - 100) / ((0:ℚ) - 100) = (100 - v1) / 100 := by ring
    have e2 : (v2 - 100) / ((0:ℚ) - 100) = (100 - v2) / 100 := by ring
    rw [e1, e2]
    gcongr <;> linarith
  · rw [range_some x1 "Alcohol" 30 0 v1 (by with_unfolding_all decide) h1,
        range_some x2 "Alcohol" 30 0 v2 (by with_unfolding_all decide) h2]
    have e1 : (v1 - 30) / ((0:ℚ) - 30) = (30 - v1) / 30 := by ring
    have e2 : (v2 - 30) / ((0:ℚ) - 30) = (30 - v2) / 30 := by ring
    rw [e1, e2]
    gcongr <;> linarith

/-- Witness for C7: Fried_Potato at raw values 0 and 10. -/
theorem inverted_fields_antitone_witness :
    ("Fried_Potato" = "Fried_Potato" ∨ "Fried_Potato" = "Alcohol") ∧
    (0:ℚ) ≤ 10 ∧
    pyFloat (PyVal.int 0) = some 0 ∧
    pyFloat (PyVal.int 10) = some 10 ∧
    process_input_value (PyVal.int 10) "Fried_Potato" ≤
      process_input_value (PyVal.int 0) "Fried_Potato" :=
  ⟨Or.inl rfl, by norm_num, by with_unfolding_all decide,
   by with_unfolding_all decide,
   inverted_fields_antitone "Fried_Potato" (Or.inl rfl) (PyVal.int 0)
     (PyVal.int 10) 0 10 (by norm_num) (by with_unfolding_all decide)
     (by with_unfolding_all decide)⟩

/-- Claim C9: for every field that has an entry in SCALERS (all LinearRange
and CategoryMap fields) and every possible input value, the normalizer
result lies in [0, 1]: linear results are clamped, category values are all
inside [0, 1], and every fallback return is 0.0 or 1.0. -/
theorem configured_fields_bounded (f : String) (hf : SCALERS f ≠ Option.none)
    (v : PyVal) :
    0 ≤ process_input_value v f ∧ process_input_value v f ≤ 1 := by
  cases hS : SCALERS f with
  | none => exact absurd hS hf
  | some c =>
    cases c with
    | range mn mx =>
      cases hq : pyFloat v with
      | some w => rw [range_some v f mn mx w hS hq]; exact clamp_mem _
      | none => rw [range_none v f mn mx hS hq]; norm_num
    | cat m =>
      rcases cat_result_cases v f m hS with hmem | h0 | h1
      · exact fallback_bounds _ (scalers_cat_values f m hS _ hmem)
      · rw [h0]; norm_num
      · rw [h1]; norm_num

/-- Witness for C9: the Sex field with an unrecognized string. -/
theorem configured_fields_bounded_witness :
    SCALERS "Sex" ≠ Option.none ∧
    (0 ≤ process_input_value (PyVal.str "junk") "Sex" ∧
      process_input_value (PyVal.str "junk") "Sex" ≤ 1) :=
  ⟨by with_unfolding_all decide,
   configured_fields_bounded "Sex" (by with_unfolding_all decide)
     (PyVal.str "junk")⟩

/-- Claim C4: the normalizer is total — it returns a rational for every
field name and every input value (None, boolean, number or string), and a
value that fails to parse as a number is never surfaced as an error: it is
resolved silently by the fallback chain to one of the configured category
values or the 0.0/1.0 fallbacks. -/
theorem normalizer_total (v : PyVal) (f : String) :
    (∃ r : ℚ, process_input_value v f = r) ∧
    (pyFloat v = Option.none →
      process_input_value v f ∈ fallbackValues) := by
  refine ⟨⟨process_input_value v f, rfl⟩, ?_⟩
  intro hq
  cases hS : SCALERS f with
  | none =>
    unfold process_input_value
    rw [hS, hq]
    dsimp only
    split_ifs <;> with_unfolding_all decide
  | some c =>
    cases c with
    | range mn mx =>
      rw [range_none v f mn mx hS hq]
      with_unfolding_all decide
    | cat m =>
      rcases cat_result_cases v f m hS with hmem | h0 | h1
      · exact scalers_cat_values f m hS _ hmem
      · rw [h0]; with_unfolding_all decide
      · rw [h1]; with_unfolding_all decide

/-- Witness for C4: an unparseable string on the Diabetes field resolves
silently to a fallback value. -/
theorem normalizer_total_witness :
    pyFloat (PyVal.str "banana") = Option.none ∧
    process_input_value (PyVal.str "banana") "Diabetes" ∈ fallbackValues :=
  ⟨by with_unfolding_all decide,
   (normalizer_total (PyVal.str "banana") "Diabetes").2
     (by with_unfolding_all decide)⟩

/-- Counterexample to C3 as stated: on the CategoryMap field
General_Health, the value 1 renders to the string "1" and matches no map
key and no numeric-string key, yet the normalizer returns 0.0, not 1.0 —
the token-fallback lists in the code (src/app.py lines 142-143 and 154-155)
do not contain "1". -/
theorem cat_token_one_cex :
    SCALERS "General_Health" = some (ScalerConfig.cat
      [("Excellent", 1.0), ("Very_Good", 0.75), ("Good", 0.5),
       ("Fair", 0.25), ("Poor", 0.0)]) ∧
    List.lookup (pyStr (PyVal.int 1))
      [("Excellent", (1.0:ℚ)), ("Very_Good", 0.75), ("Good", 0.5),
       ("Fair", 0.25), ("Poor", 0.0)] = Option.none ∧
    pyFloat (PyVal.int 1) = some 1 ∧
    List.lookup (toString (truncQ 1))
      [("Excellent", (1.0:ℚ)), ("Very_Good", 0.75), ("Good", 0.5),
       ("Fair", 0.25), ("Poor", 0.0)] = Option.none ∧
    strLower (pyStr (PyVal.int 1)) = "1" ∧
    process_input_value (PyVal.int 1) "General_Health" = 0.0 ∧
    process_input_value (PyVal.int 1) "General_Health" ≠ 1.0 := by
  with_unfolding_all decide

/-- Claim C3 as amended: in the category-map token-fallback step the
truthy tokens are exactly "on", "true", "yes" (without "1") and the falsy
tokens are exactly "off", "false", "no" (without "0"); for a CategoryMap
field where the value matches no map key and no numeric-string key, a value
rendering to one of the truthy tokens returns 1.0, one rendering to a falsy
token returns 0.0, and a value rendering to "1" or to "0" returns 0.0 (via
the default fallback, not the token sets). -/
theorem cat_token_fallback (f : String) (m : List (String × ℚ)) (v : PyVal)
    (hS : SCALERS f = some (ScalerConfig.cat m))
    (hex : m.lookup (pyStr v) = Option.none)
    (hnum : ∀ q, pyFloat v = some q →
      m.lookup (toString (truncQ q)) = Option.none) :
    (strLower (pyStr v) = "on" ∨ strLower (pyStr v) = "true" ∨
      strLower (pyStr v) = "yes" → process_input_value v f = 1.0) ∧
    (strLower (pyStr v) = "off" ∨ strLower (pyStr v) = "false" ∨
      strLower (pyStr v) = "no" → process_input_value v f = 0.0) ∧
    (strLower (pyStr v) = "1" → process_input_value v f = 0.0) ∧
    (strLower (pyStr v) = "0" → process_input_value v f = 0.0) := by
  have key : process_input_value v f =
      (if strLower (pyStr v) = "on" ∨ strLower (pyStr v) = "true" ∨
          strLower (pyStr v) = "yes" then 1.0
       else if strLower (pyStr v) = "off" ∨ strLower (pyStr v) = "false" ∨
          strLower (pyStr v) = "no" then 0.0
       else 0.0) := by
    unfold process_input_value
    rw [hS]
    dsimp only
    rw [hex]
    dsimp only
    cases hq : pyFloat v with
    | some w =>
      dsimp only
      rw [hnum w hq]
    | none =>
      rfl
  rw [key]
  refine ⟨?_, ?_, ?_, ?_⟩
  · rintro (h | h | h) <;> rw [h] <;> with_unfolding_all decide
  · rintro (h | h | h) <;> rw [h] <;> with_unfolding_all decide
  · intro h
    rw [h]
    with_unfolding_all decide
  · intro h
    rw [h]
    with_unfolding_all decide

/-- Witness for the amended C3: the mixed-case token "oN" on the
General_Health map. -/
theorem cat_token_fallback_witness :
    strLower (pyStr (PyVal.str "oN")) = "on" ∧
    process_input_value (PyVal.str "oN") "General_Health" = 1.0 :=
  ⟨by with_unfolding_all decide,
   (cat_token_fallback "General_Health"
      [("Excellent", 1.0), ("Very_Good", 0.75), ("Good", 0.5),
       ("Fair", 0.25), ("Poor", 0.0)] (PyVal.str "oN")
      (by with_unfolding_all decide) (by with_unfolding_all decide)
      (fun q hq => by
        rw [(by with_unfolding_all decide :
          pyFloat (PyVal.str "oN") = Option.none)] at hq
        exact Option.noConfusion hq)).1
     (Or.inl (by with_unfolding_all decide))⟩
